import Mathlib

/-!
Verification of the Mastermind API cookbook evidence-aggregation scripts.

The definitions below are shallow embeddings of the Python sources:

* `json_or_print_error_vpe`  : variant_phenotype_evidence.py, lines 137-157
* `json_or_print_error_base` : base.py, lines 19-37
* `get_or_fetch`             : the PMID article cache of aggregate_article_info
                               (variant_phenotype_evidence.py lines 248-253,
                               orig/gene_fusion_evidence.py lines 236-241)
* `fusionPages`, `fusion_pmids`, `fusionFetchCount`, `sensitivityAccepted`,
  `printProgressDefined`     : orig/gene_fusion_evidence.py
* `get_articles_gnme`        : gene_newly_matched_evidence.py lines 148-170
* `download_all_loop` etc.   : all_gene_variants.py lines 54-70
* `variant_dna_format`, `specificity_match`, `vpe_get_articles` :
                               variant_phenotype_evidence.py lines 177-214
* `pmid_comentioned_variants`, `comentionGroupKey` :
                               variant_phenotype_evidence.py lines 299-306
* `table_append`, `index_article`, `build_index` : the per-article index loop of
                               aggregate_article_info
* `sort_by_support`          : the sorted(items, key=len(item[1]), reverse=True)
                               reporter emission

The external service is modelled by explicit inputs: a page number to record
list map, the page counts the service reports, and HTTP status codes per
attempt.  Crashes of the scripts (sys.exit, ZeroDivisionError, IndexError)
surface as `none` or as a dedicated outcome constructor.
-/

namespace MastermindCookbook

/-! ## Request layer (base.py and variant_phenotype_evidence.py) -/

/-- Outcome of one logical API request.  `ok attempt` means response.json()
was returned after the given number of prior failed attempts, `skipData`
models the "SKIPPING DATA FOR ABOVE REQUEST" return of the Python value None,
and `exitRun` models sys.exit(0). -/
inductive ReqOutcome where
  | ok (attempt : Nat)
  | skipData
  | exitRun
  deriving DecidableEq, Repr

/-- json_or_print_error of variant_phenotype_evidence.py (lines 137-157):
200 returns the body; 404 returns the None sentinel; 408 and 500 retry once
(api_get is re-entered with tries+1) and on a second transient failure return
the sentinel; every other status calls sys.exit(0).  `statuses n` is the HTTP
status code of attempt `n`. -/
def json_or_print_error_vpe (statuses : Nat → Nat) (tries : Nat) : ReqOutcome :=
  if statuses tries = 200 then ReqOutcome.ok tries
  else if statuses tries = 404 then ReqOutcome.skipData
  else if statuses tries = 408 ∨ statuses tries = 500 then
    if h : tries < 1 then json_or_print_error_vpe statuses (tries + 1)
    else ReqOutcome.skipData
  else ReqOutcome.exitRun
termination_by 1 - tries
decreasing_by omega

/-- json_or_print_error of base.py (lines 19-37): 200 returns the body;
408 and 500 retry once but only for GET requests (otherwise the sentinel is
returned immediately); every other status, including 404, falls through to
sys.exit(0). -/
def json_or_print_error_base (statuses : Nat → Nat) (isGet : Bool) (tries : Nat) :
    ReqOutcome :=
  if statuses tries = 200 then ReqOutcome.ok tries
  else if statuses tries = 408 ∨ statuses tries = 500 then
    if h : tries < 1 ∧ isGet = true then json_or_print_error_base statuses isGet (tries + 1)
    else ReqOutcome.skipData
  else ReqOutcome.exitRun
termination_by 1 - tries
decreasing_by omega

/-! ## Article cache (aggregate_article_info) -/

/-- Process-lifetime article cache plus a count of article_info network
requests performed so far. -/
structure CacheState (α : Type) where
  store : List (String × α)
  networkCalls : Nat

/-- Lookup of a PMID in the cache store (the Python dict membership test
`pmid in article_info` followed by `article_info[pmid]`). -/
def lookupPmid {α : Type} : List (String × α) → String → Option α
  | [], _ => none
  | (k, v) :: rest, pmid => if k = pmid then some v else lookupPmid rest pmid

/-- The caching pattern of aggregate_article_info (variant_phenotype_evidence.py
lines 248-253): if the PMID is cached return the cached record, otherwise call
the article_info endpoint (modelled by the pure map `fetch`), store the result
and return it.  The returned state records one extra network call exactly in
the fetch branch. -/
def get_or_fetch {α : Type} (fetch : String → α) (st : CacheState α) (pmid : String) :
    α × CacheState α :=
  match lookupPmid st.store pmid with
  | some d => (d, st)
  | none => (fetch pmid, ⟨(pmid, fetch pmid) :: st.store, st.networkCalls + 1⟩)

/-! ## Gene fusion retriever (orig/gene_fusion_evidence.py) -/

/-- The sensitivity prompt validation of choose_sensitivity (lines 105-119):
an entered integer is accepted unless it is above 10000 or below 1. -/
def sensitivityAccepted (s : Int) : Bool :=
  !(decide (s > 10000) || decide (s < 1))

/-- Page bound computed by fusion_pmids (line 144):
pages = min(int(data["pages"]), _sensitivity/5) with Python 2 integer
division by the page size 5. -/
def fusionPages (sensitivity reportedPages : Nat) : Nat :=
  min reportedPages (sensitivity / 5)

/-- print_progress (lines 69-79) computes iteration / float(total); the call
is defined exactly when total is nonzero, otherwise Python raises
ZeroDivisionError. -/
def printProgressDefined (total : Nat) : Bool :=
  total != 0

/-- fusion_pmids (lines 136-157) on a service reporting `reportedPages` total
pages and answering page `i` with `recs i`: the first articles query is always
made, then print_progress(1, pages) runs (ZeroDivisionError when pages = 0,
modelled as `none`), then pages 2..pages are fetched and concatenated. -/
def fusion_pmids (sensitivity reportedPages : Nat) (recs : Nat → List String) :
    Option (List String) :=
  let pages := fusionPages sensitivity reportedPages
  if printProgressDefined pages then
    some ((List.range' 1 pages).flatMap recs)
  else none

/-- Number of articles-endpoint requests fusion_pmids performs: one initial
request, plus pages 2..pages when pages > 1 (the loop is not reached when
pages = 0 because print_progress raises first, after the initial request). -/
def fusionFetchCount (sensitivity reportedPages : Nat) : Nat :=
  1 + (if 1 < fusionPages sensitivity reportedPages
       then fusionPages sensitivity reportedPages - 1 else 0)

/-! ## Theorems for claims C2, C3, C10 -/

/-- Claim C2 (confirmed): article-cache idempotence.  For any PMID requested
twice in one aggregation run, the second request returns exactly the value
produced by the first request and leaves the state, in particular the network
call counter, unchanged: looking up an already cached PMID is side-effect-free
and performs zero network calls. -/
theorem c2_cache_idempotent {α : Type} (fetch : String → α) (st : CacheState α)
    (pmid : String) :
    (get_or_fetch fetch (get_or_fetch fetch st pmid).2 pmid).1
        = (get_or_fetch fetch st pmid).1 ∧
    (get_or_fetch fetch (get_or_fetch fetch st pmid).2 pmid).2
        = (get_or_fetch fetch st pmid).2 ∧
    (get_or_fetch fetch (get_or_fetch fetch st pmid).2 pmid).2.networkCalls
        = (get_or_fetch fetch st pmid).2.networkCalls := by
  unfold get_or_fetch
  cases h : lookupPmid st.store pmid with
  | some d => simp [h]
  | none => simp [h, lookupPmid]

/-- Claim C3, counterexample: with accepted sensitivity 4 and one reported
page, min(reported_pages, sensitivity / 5) = 0, yet fusion_pmids has already
performed its initial articles request, so the number of fetched pages is 1,
not at most 0.  The claim as stated is therefore false. -/
theorem c3_counterexample :
    ¬ (fusionFetchCount 4 1 ≤ min 1 (4 / 5)) := by decide

/-- Claim C3 (corrected): the gene fusion retriever fetches exactly
max 1 (min reported_pages (sensitivity / 5)) pages — the initial page request
always happens, and beyond it the ceiling is enforced, so whenever
min(reported_pages, sensitivity / 5) is at least 1 the fetch count is at most
that minimum.  In particular with sensitivity 10 and page size 5 exactly two
pages are fetched when the service reports 100 pages, and with the default
sensitivity 1000 at most 200 pages are fetched. -/
theorem c3_ceiling (s reported : Nat) :
    fusionFetchCount s reported = max 1 (min reported (s / 5)) ∧
    (5 ≤ s → 1 ≤ reported → fusionFetchCount s reported ≤ min reported (s / 5)) ∧
    fusionFetchCount 10 100 = 2 ∧
    fusionFetchCount 1000 reported ≤ 200 := by
  refine ⟨?_, ?_, by decide, ?_⟩
  · unfold fusionFetchCount fusionPages
    split_ifs with h <;> omega
  · intro hs hr
    unfold fusionFetchCount fusionPages
    split_ifs with h <;> omega
  · unfold fusionFetchCount fusionPages
    split_ifs with h <;> omega

/-- Witness for c3_ceiling at sensitivity 10, reported pages 100. -/
theorem c3_ceiling_witness :
    fusionFetchCount 10 100 = max 1 (min 100 (10 / 5)) ∧
    fusionFetchCount 10 100 ≤ min 100 (10 / 5) :=
  ⟨(c3_ceiling 10 100).1, (c3_ceiling 10 100).2.1 (by decide) (by decide)⟩

/-- Claim C10 (confirmed): the sensitivity prompt accepts every integer from 1
to 10000, but for any accepted sensitivity between 1 and 4 the page bound
min(reported_pages, sensitivity / 5) collapses to 0 under integer division,
print_progress(1, 0) divides by float(0), and fusion_pmids raises
ZeroDivisionError (modelled by `none`) whenever the first articles query
succeeds, for every service response. -/
theorem c10_small_sensitivity_crash (s reported : Nat) (recs : Nat → List String)
    (h1 : 1 ≤ s) (h4 : s ≤ 4) :
    sensitivityAccepted (s : Int) = true ∧
    fusionPages s reported = 0 ∧
    printProgressDefined (fusionPages s reported) = false ∧
    fusion_pmids s reported recs = none := by
  have hpg : fusionPages s reported = 0 := by
    unfold fusionPages
    omega
  refine ⟨?_, hpg, ?_, ?_⟩
  · unfold sensitivityAccepted
    simp only [Bool.not_eq_true', Bool.or_eq_false_iff, decide_eq_false_iff_not, not_lt]
    omega
  · rw [hpg]; rfl
  · unfold fusion_pmids
    rw [hpg]
    rfl

/-- Witness for c10_small_sensitivity_crash at sensitivity 3, 100 reported
pages and an empty service. -/
theorem c10_small_sensitivity_crash_witness :
    sensitivityAccepted ((3 : Nat) : Int) = true ∧
    fusionPages 3 100 = 0 ∧
    printProgressDefined (fusionPages 3 100) = false ∧
    fusion_pmids 3 100 (fun _ => []) = none :=
  c10_small_sensitivity_crash 3 100 (fun _ => []) (by decide) (by decide)

/-- Claim C5, counterexample: in the shared request layer of base.py, a GET
request answered with HTTP 404 does not produce the empty-result sentinel:
json_or_print_error falls through its status cases and calls sys.exit(0),
aborting the run. -/
theorem c5_counterexample :
    json_or_print_error_base (fun _ => 404) true 0 = ReqOutcome.exitRun ∧
    ReqOutcome.exitRun ≠ ReqOutcome.skipData := by
  refine ⟨?_, by decide⟩
  unfold json_or_print_error_base
  norm_num

/-- Claim C5 (corrected): the 404 empty-result sentinel exists only in the
per-script request layer of variant_phenotype_evidence.py; in the shared
request layer of base.py a 404 aborts the run.  In detail, writing s0 and s1
for the statuses of the first attempt and of the retry: in
variant_phenotype_evidence.py, 200 succeeds, 404 returns the sentinel,
408/500 retries exactly once, after which 200 succeeds, 404/408/500 return
the skip sentinel and any other status aborts; any other first status aborts
after printing the endpoint, parameters and body.  In base.py, 404 aborts,
408/500 is retried once only for GET requests (non-GET transient failures
return the sentinel with no retry), and on the retry 200 succeeds, 408/500
return the sentinel and any other status, again including 404, aborts. -/
theorem c5_failure_policy (statuses : Nat → Nat) (isGet : Bool) :
    (statuses 0 = 200 → json_or_print_error_vpe statuses 0 = ReqOutcome.ok 0) ∧
    (statuses 0 = 404 → json_or_print_error_vpe statuses 0 = ReqOutcome.skipData) ∧
    ((statuses 0 = 408 ∨ statuses 0 = 500) →
       ((statuses 1 = 200 → json_or_print_error_vpe statuses 0 = ReqOutcome.ok 1) ∧
        ((statuses 1 = 404 ∨ statuses 1 = 408 ∨ statuses 1 = 500) →
           json_or_print_error_vpe statuses 0 = ReqOutcome.skipData) ∧
        (statuses 1 ≠ 200 → statuses 1 ≠ 404 → statuses 1 ≠ 408 → statuses 1 ≠ 500 →
           json_or_print_error_vpe statuses 0 = ReqOutcome.exitRun))) ∧
    (statuses 0 ≠ 200 → statuses 0 ≠ 404 → statuses 0 ≠ 408 → statuses 0 ≠ 500 →
       json_or_print_error_vpe statuses 0 = ReqOutcome.exitRun) ∧
    (statuses 0 = 200 → json_or_print_error_base statuses isGet 0 = ReqOutcome.ok 0) ∧
    (statuses 0 = 404 → json_or_print_error_base statuses isGet 0 = ReqOutcome.exitRun) ∧
    ((statuses 0 = 408 ∨ statuses 0 = 500) → isGet = false →
       json_or_print_error_base statuses isGet 0 = ReqOutcome.skipData) ∧
    ((statuses 0 = 408 ∨ statuses 0 = 500) → isGet = true →
       ((statuses 1 = 200 → json_or_print_error_base statuses isGet 0 = ReqOutcome.ok 1) ∧
        ((statuses 1 = 408 ∨ statuses 1 = 500) →
           json_or_print_error_base statuses isGet 0 = ReqOutcome.skipData) ∧
        (statuses 1 ≠ 200 → statuses 1 ≠ 408 → statuses 1 ≠ 500 →
           json_or_print_error_base statuses isGet 0 = ReqOutcome.exitRun))) ∧
    (statuses 0 ≠ 200 → statuses 0 ≠ 404 → statuses 0 ≠ 408 → statuses 0 ≠ 500 →
       json_or_print_error_base statuses isGet 0 = ReqOutcome.exitRun) := by
  have hv1 : json_or_print_error_vpe statuses 1 =
      (if statuses 1 = 200 then ReqOutcome.ok 1
       else if statuses 1 = 404 then ReqOutcome.skipData
       else if statuses 1 = 408 ∨ statuses 1 = 500 then ReqOutcome.skipData
       else ReqOutcome.exitRun) := by
    rw [json_or_print_error_vpe]
    norm_num
  have hb1 : json_or_print_error_base statuses isGet 1 =
      (if statuses 1 = 200 then ReqOutcome.ok 1
       else if statuses 1 = 408 ∨ statuses 1 = 500 then ReqOutcome.skipData
       else ReqOutcome.exitRun) := by
    rw [json_or_print_error_base]
    norm_num
  have hvpe0 : json_or_print_error_vpe statuses 0 =
      (if statuses 0 = 200 then ReqOutcome.ok 0
       else if statuses 0 = 404 then ReqOutcome.skipData
       else if statuses 0 = 408 ∨ statuses 0 = 500 then json_or_print_error_vpe statuses 1
       else ReqOutcome.exitRun) := by
    rw [json_or_print_error_vpe]
    norm_num
  have hbase0 : json_or_print_error_base statuses isGet 0 =
      (if statuses 0 = 200 then ReqOutcome.ok 0
       else if statuses 0 = 408 ∨ statuses 0 = 500 then
         (if isGet = true then json_or_print_error_base statuses isGet 1
          else ReqOutcome.skipData)
       else ReqOutcome.exitRun) := by
    rw [json_or_print_error_base]
    rcases isGet <;> norm_num
  refine ⟨?_, ?_, ?_, ?_, ?_, ?_, ?_, ?_, ?_⟩
  · intro h
    rw [hvpe0]
    simp [h]
  · intro h
    rw [hvpe0]
    simp [h]
  · intro h
    have e : json_or_print_error_vpe statuses 0 = json_or_print_error_vpe statuses 1 := by
      rw [hvpe0]
      rcases h with h | h <;> simp [h]
    rw [e, hv1]
    refine ⟨fun h1 => by simp [h1], fun h1 => ?_,
      fun ha hb hc hd => by simp [ha, hb, hc, hd]⟩
    rcases h1 with h1 | h1 | h1 <;> simp [h1]
  · intro ha hb hc hd
    rw [hvpe0]
    simp [ha, hb, hc, hd]
  · intro h
    rw [hbase0]
    simp [h]
  · intro h
    rw [hbase0]
    simp [h]
  · intro h hg
    rw [hbase0]
    rcases h with h | h <;> simp [h, hg]
  · intro h hg
    have e : json_or_print_error_base statuses isGet 0
        = json_or_print_error_base statuses isGet 1 := by
      rw [hbase0]
      rcases h with h | h <;> simp [h, hg]
    rw [e, hb1]
    refine ⟨fun h1 => by simp [h1], fun h1 => ?_,
      fun ha hb hc => by simp [ha, hb, hc]⟩
    rcases h1 with h1 | h1 <;> simp [h1]
  · intro ha hb hc hd
    rw [hbase0]
    simp [ha, hb, hc, hd]

/-- Witness for c5_failure_policy: a first transient status 500 followed by a
successful retry yields the body from attempt 1, in both request layers. -/
theorem c5_failure_policy_witness :
    json_or_print_error_vpe (fun n => if n = 0 then 500 else 200) 0 = ReqOutcome.ok 1 ∧
    json_or_print_error_base (fun n => if n = 0 then 500 else 200) true 0 = ReqOutcome.ok 1 :=
  ⟨((c5_failure_policy (fun n => if n = 0 then 500 else 200) true).2.2.1
      (by norm_num)).1 (by norm_num),
   ((c5_failure_policy (fun n => if n = 0 then 500 else 200) true).2.2.2.2.2.2.2.1
      (by norm_num) rfl).1 (by norm_num)⟩

/-! ## Paginated retrieval (gene_newly_matched_evidence.py, all_gene_variants.py) -/

/-- Records accumulated by fetching `cnt` consecutive pages starting at page
`start` from a service answering page `i` with `recs i`. -/
def fetchPages (recs : Nat → List String) : Nat → Nat → List String
  | _, 0 => []
  | start, cnt + 1 => recs start ++ fetchPages recs (start + 1) cnt

/-- get_articles of gene_newly_matched_evidence.py (lines 148-170): the page
bound is int(data["pages"]) taken from the first response and never
recomputed; page 1 records are kept, then pages 2..pages are fetched and
appended in order.  When the first response reports 0 pages,
print_progress(1, 0) raises ZeroDivisionError, modelled as `none`. -/
def get_articles_gnme (recs : Nat → List String) (reportedPages : Nat) :
    Option (List String) :=
  if reportedPages = 0 then none
  else some (fetchPages recs 1 reportedPages)

/-- The while loop of download_all_variants (all_gene_variants.py lines
54-70): while page <= last_page, fetch the page, overwrite last_page with
min(data["pages"], MAX_PAGE_COUNT) from the response just received (not a
running minimum), and advance.  MAX_PAGE_COUNT = 1000. -/
def download_all_loop (recs : Nat → List String) (reports : Nat → Nat)
    (page lastPage : Nat) : List String :=
  if h : page ≤ lastPage then
    recs page ++ download_all_loop recs reports (page + 1) (min (reports page) 1000)
  else []
termination_by max lastPage 1000 + 1 - page
decreasing_by omega

/-- download_all_variants starts its loop at page 1 with last_page =
MAX_PAGE_COUNT = 1000. -/
def download_all_variants (recs : Nat → List String) (reports : Nat → Nat) :
    List String :=
  download_all_loop recs reports 1 1000

/-- The sequence of page numbers actually requested by the
download_all_variants loop. -/
def download_page_list (reports : Nat → Nat) (page lastPage : Nat) : List Nat :=
  if h : page ≤ lastPage then
    page :: download_page_list reports (page + 1) (min (reports page) 1000)
  else []
termination_by max lastPage 1000 + 1 - page
decreasing_by omega

/-- Page numbers requested in one full run of download_all_variants. -/
def download_fetched_pages (reports : Nat → Nat) : List Nat :=
  download_page_list reports 1 1000

theorem fetchPages_eq_flatten (L : List (List String)) :
    ∀ (g : Nat → List String) (s : Nat), (∀ j, j < L.length → g (s + j) = L.getD j []) →
      fetchPages g s L.length = L.flatten := by
  induction L with
  | nil => intro g s _; rfl
  | cons a M ih =>
    intro g s h
    have h0 : g s = a := by
      have := h 0 (by simp)
      simpa using this
    have hM : fetchPages g (s + 1) M.length = M.flatten := by
      refine ih g (s + 1) ?_
      intro j hj
      have := h (j + 1) (by simp; omega)
      have e : s + (j + 1) = s + 1 + j := by omega
      rw [e] at this
      simpa using this
    simp only [List.length_cons, fetchPages, h0, hM, List.flatten_cons]

theorem download_all_loop_const (recs : Nat → List String) (P : Nat) (hP : P ≤ 1000) :
    ∀ n page, P + 1 - page = n →
      download_all_loop recs (fun _ => P) page P = fetchPages recs page n := by
  intro n
  induction n with
  | zero =>
    intro page hpg
    rw [download_all_loop, dif_neg (by omega)]
    rfl
  | succ m ih =>
    intro page hpg
    rw [download_all_loop, dif_pos (by omega)]
    show recs page ++ download_all_loop recs (fun _ => P) (page + 1) (min P 1000) = _
    rw [Nat.min_eq_left hP, fetchPages, ih (page + 1) (by omega)]

/-- Claim C4 (confirmed): for a service holding the pages of `svcPages`
(every response reports svcPages.length total pages, and page i carries the
records svcPages[i-1]), with no ceiling and no specificity predicate active,
both pagination loops return exactly the concatenation of all pages in page
order — hence exactly N records, order preserved, and duplicate-free whenever
the N service records are distinct.  The nonemptiness hypothesis excludes the
zero-page response, on which get_articles crashes in print_progress before
returning, and the cap reflects MAX_PAGE_COUNT of all_gene_variants.py. -/
theorem c4_pagination (svcPages : List (List String)) (hne : svcPages ≠ [])
    (hcap : svcPages.length ≤ 1000) :
    get_articles_gnme (fun i => svcPages.getD (i - 1) []) svcPages.length
      = some svcPages.flatten ∧
    download_all_variants (fun i => svcPages.getD (i - 1) []) (fun _ => svcPages.length)
      = svcPages.flatten := by
  have hlen : svcPages.length ≠ 0 := by
    intro h0
    exact hne (List.length_eq_zero.mp h0)
  have hfetch : fetchPages (fun i => svcPages.getD (i - 1) []) 1 svcPages.length
      = svcPages.flatten := by
    refine fetchPages_eq_flatten svcPages _ 1 ?_
    intro j hj
    simp
  constructor
  · rw [get_articles_gnme, if_neg hlen, hfetch]
  · rw [download_all_variants]
    have h1 : download_all_loop (fun i => svcPages.getD (i - 1) [])
          (fun _ => svcPages.length) 1 1000
        = download_all_loop (fun i => svcPages.getD (i - 1) [])
          (fun _ => svcPages.length) 1 svcPages.length := by
      conv_lhs => rw [download_all_loop]
      conv_rhs => rw [download_all_loop]
      rw [dif_pos (by omega : (1 : Nat) ≤ 1000),
        dif_pos (show (1 : Nat) ≤ svcPages.length by omega)]
    rw [h1, download_all_loop_const (fun i => svcPages.getD (i - 1) []) svcPages.length hcap
        svcPages.length 1 (by omega)]
    exact hfetch

/-- Witness for c4_pagination on a two-page service holding three records. -/
theorem c4_pagination_witness :
    get_articles_gnme (fun i => [["p1", "p2"], ["p3"]].getD (i - 1) [])
        ([["p1", "p2"], ["p3"]] : List (List String)).length
      = some ([["p1", "p2"], ["p3"]] : List (List String)).flatten ∧
    download_all_variants (fun i => [["p1", "p2"], ["p3"]].getD (i - 1) [])
        (fun _ => ([["p1", "p2"], ["p3"]] : List (List String)).length)
      = ([["p1", "p2"], ["p3"]] : List (List String)).flatten :=
  c4_pagination [["p1", "p2"], ["p3"]] (by decide) (by decide)

/-- Service used to refute claim C9: the first page reports 2 total pages,
the second page reports 5 total pages, later pages report 0. -/
def c9reports : Nat → Nat :=
  fun i => if i = 1 then 2 else if i = 2 then 5 else 0

/-- Claim C9, counterexample: the download_all_variants loop bound is NOT the
minimum of all total-pages values observed so far.  Against a service whose
first page reports 2 pages and whose second page reports 5, the loop fetches
page 3, which exceeds the bound 2 reported by page 1. -/
theorem c9_counterexample :
    ¬ (∀ p ∈ download_fetched_pages c9reports,
         ∀ q, 1 ≤ q → q < p → p ≤ c9reports q) := by
  intro hall
  have hlist : download_fetched_pages c9reports = [1, 2, 3] := by
    simp [download_fetched_pages, download_page_list, c9reports]
  have h3 := hall 3 (by rw [hlist]; simp) 1 (by norm_num) (by norm_num)
  rw [c9reports] at h3
  norm_num at h3

theorem mem_download_page_list (reports : Nat → Nat) :
    ∀ page lastPage p, p ∈ download_page_list reports page lastPage →
      (p = page ∧ page ≤ lastPage) ∨ (page < p ∧ p ≤ min (reports (p - 1)) 1000) := by
  intro page lastPage
  induction page, lastPage using download_page_list.induct reports with
  | case1 page lastPage h ih =>
    intro p hp
    rw [download_page_list, dif_pos h] at hp
    rcases List.mem_cons.mp hp with rfl | hp'
    · exact Or.inl ⟨rfl, h⟩
    · rcases ih p hp' with ⟨rfl, hle⟩ | ⟨hlt, hle⟩
      · right
        constructor
        · omega
        · have : page + 1 - 1 = page := by omega
          rwa [this]
      · exact Or.inr ⟨by omega, hle⟩
  | case2 page lastPage h =>
    intro p hp
    rw [download_page_list, dif_neg h] at hp
    simp at hp

/-- Claim C9 (corrected): in download_all_variants the loop bound after
fetching page p is min(total-pages reported by page p, MAX_PAGE_COUNT) — the
most recently observed report, not the running minimum of all reports, so a
later larger report raises the bound back above an earlier smaller one (see
the counterexample).  Consequently every fetched page p satisfies p ≥ 1,
p ≤ 1000 and, when p ≥ 2, p ≤ min(report of page p-1, 1000).  In
get_articles of gene_newly_matched_evidence.py the bound is the first
response total-pages value and is never recomputed at all. -/
theorem c9_loop_bound (reports : Nat → Nat) (p : Nat)
    (hp : p ∈ download_fetched_pages reports) :
    1 ≤ p ∧ p ≤ 1000 ∧ (2 ≤ p → p ≤ min (reports (p - 1)) 1000) := by
  rcases mem_download_page_list reports 1 1000 p hp with ⟨rfl, _⟩ | ⟨hlt, hle⟩
  · exact ⟨le_refl 1, by omega, by omega⟩
  · refine ⟨by omega, ?_, fun _ => hle⟩
    omega

/-- Witness for c9_loop_bound: page 2 fetched against the c9reports service. -/
theorem c9_loop_bound_witness :
    1 ≤ 2 ∧ 2 ≤ 1000 ∧ (2 ≤ 2 → 2 ≤ min (c9reports (2 - 1)) 1000) :=
  c9_loop_bound c9reports 2
    (by simp [download_fetched_pages, download_page_list, c9reports])

/-! ## Co-mention detector (variant_phenotype_evidence.py lines 299-314) -/

/-- The membership test input_variant.upper() in
[pmid_variant.upper() for pmid_variant in pmid_variants]. -/
def upperMem (v : String) (pmidVariants : List String) : Bool :=
  (pmidVariants.map String.toUpper).contains v.toUpper

/-- pmid_comentioned_variants (lines 299-300): the input variants (the keys
of variant_info) that appear case-insensitively among the gene:variant pairs
cited by the article, then sorted in place by the Python list sort
(lexicographic ascending). -/
def pmid_comentioned_variants (inputVariants pmidVariants : List String) :
    List String :=
  (inputVariants.filter (fun v => upperMem v pmidVariants)).insertionSort (· ≤ ·)

/-- Lines 304-306: a co-mention group is recorded for the article exactly when
more than one input variant is co-mentioned, under the key
"; ".join(pmid_comentioned_variants). -/
def comentionGroupKey (inputVariants pmidVariants : List String) : Option String :=
  let cs := pmid_comentioned_variants inputVariants pmidVariants
  if 1 < cs.length then some (String.intercalate "; " cs) else none

/-- Claim C1 (confirmed): for an input variant set V and the gene:variant
pairs pv cited by one article, a co-mention group is recorded iff more than
one member of V matches pv case-insensitively; the recorded key is exactly
the matching members sorted lexicographically and joined with "; "; the key
is invariant under any reordering V2 of the input variants; and the group
members are always drawn from V. -/
theorem c1_comention (V V2 pv : List String) (hperm : V.Perm V2) :
    ((comentionGroupKey V pv).isSome ↔
       1 < (V.filter (fun v => upperMem v pv)).length) ∧
    comentionGroupKey V pv = comentionGroupKey V2 pv ∧
    (∀ k, comentionGroupKey V pv = some k →
       k = String.intercalate "; "
         ((V.filter (fun v => upperMem v pv)).insertionSort (· ≤ ·))) ∧
    (∀ x ∈ pmid_comentioned_variants V pv, x ∈ V) := by
  have hsortEq : pmid_comentioned_variants V pv = pmid_comentioned_variants V2 pv := by
    unfold pmid_comentioned_variants
    refine List.eq_of_perm_of_sorted (r := fun a b : String => a ≤ b) ?_ ?_ ?_
    · exact ((List.perm_insertionSort _ _).trans
        ((hperm.filter _).trans (List.perm_insertionSort _ _).symm))
    · exact List.sorted_insertionSort _ _
    · exact List.sorted_insertionSort _ _
  have hlen : (pmid_comentioned_variants V pv).length
      = (V.filter (fun v => upperMem v pv)).length := by
    unfold pmid_comentioned_variants
    exact List.length_insertionSort _ _
  have hkey : comentionGroupKey V pv =
      if 1 < (V.filter (fun v => upperMem v pv)).length
      then some (String.intercalate "; " (pmid_comentioned_variants V pv)) else none := by
    show (if 1 < (pmid_comentioned_variants V pv).length
          then some (String.intercalate "; " (pmid_comentioned_variants V pv)) else none) = _
    rw [hlen]
  refine ⟨?_, ?_, ?_, ?_⟩
  · rw [hkey]
    split_ifs with h <;> simp [h]
  · unfold comentionGroupKey
    rw [hsortEq]
  · intro k hk
    rw [hkey] at hk
    split_ifs at hk with h
    exact (Option.some_inj.mp hk).symm
  · intro x hx
    unfold pmid_comentioned_variants at hx
    exact List.mem_of_mem_filter ((List.mem_insertionSort _).mp hx)

/-- Witness for c1_comention: two input variants supplied in either order,
one article citing both with different letter case. -/
theorem c1_comention_witness :
    ((comentionGroupKey ["KRAS:G12D", "BRAF:V600E"] ["braf:v600e", "kras:g12d"]).isSome ↔
       1 < (["KRAS:G12D", "BRAF:V600E"].filter
         (fun v => upperMem v ["braf:v600e", "kras:g12d"])).length) ∧
    comentionGroupKey ["KRAS:G12D", "BRAF:V600E"] ["braf:v600e", "kras:g12d"]
      = comentionGroupKey ["BRAF:V600E", "KRAS:G12D"] ["braf:v600e", "kras:g12d"] ∧
    (∀ k, comentionGroupKey ["KRAS:G12D", "BRAF:V600E"] ["braf:v600e", "kras:g12d"]
        = some k →
       k = String.intercalate "; "
         ((["KRAS:G12D", "BRAF:V600E"].filter
           (fun v => upperMem v ["braf:v600e", "kras:g12d"])).insertionSort (· ≤ ·))) ∧
    (∀ x ∈ pmid_comentioned_variants ["KRAS:G12D", "BRAF:V600E"]
        ["braf:v600e", "kras:g12d"], x ∈ ["KRAS:G12D", "BRAF:V600E"]) :=
  c1_comention ["KRAS:G12D", "BRAF:V600E"] ["BRAF:V600E", "KRAS:G12D"]
    ["braf:v600e", "kras:g12d"] (by decide)

/-! ## Ranker and reporter (variant_phenotype_evidence.py lines 516-554,
gene_newly_matched_evidence.py lines 451-477) -/

/-- Comparison used when emitting an association table:
sorted(table.items(), key=lambda item: len(item[1]), reverse=True) orders a
row before another exactly when its supporting-PMID list is at least as
long. -/
def supportGE (a b : String × List String) : Prop :=
  b.2.length ≤ a.2.length

instance : DecidableRel supportGE := fun a b => Nat.decLe b.2.length a.2.length

instance : IsTotal (String × List String) supportGE :=
  ⟨fun a b => Nat.le_total b.2.length a.2.length⟩

instance : IsTrans (String × List String) supportGE :=
  ⟨fun _ _ _ h1 h2 => Nat.le_trans h2 h1⟩

/-- Emission order of an association table: a stable sort of the rows in
table insertion order by descending supporting-PMID count (the Python
built-in sorted is stable, so equal counts retain insertion order; a stable
sort is unique, and insertion sort below is stable). -/
def sort_by_support (t : List (String × List String)) : List (String × List String) :=
  t.insertionSort supportGE

/-- Claim C7 (confirmed): every association table is emitted as exactly its
rows permuted into weakly descending supporting-PMID count, rows with equal
counts retaining the table insertion order (stability); in particular X with
three PMIDs precedes Y with two; after giving Y a third PMID the tie keeps X
first, and a fourth PMID re-sorts Y above X. -/
theorem c7_ranking (t : List (String × List String)) :
    (sort_by_support t).Perm t ∧
    List.Sorted supportGE (sort_by_support t) ∧
    (∀ a b : String × List String, a.2.length = b.2.length →
       List.Sublist [a, b] t → List.Sublist [a, b] (sort_by_support t)) ∧
    sort_by_support [("X", ["p1", "p2", "p3"]), ("Y", ["p1", "p2"])]
      = [("X", ["p1", "p2", "p3"]), ("Y", ["p1", "p2"])] ∧
    sort_by_support [("X", ["p1", "p2", "p3"]), ("Y", ["p1", "p2", "p4"])]
      = [("X", ["p1", "p2", "p3"]), ("Y", ["p1", "p2", "p4"])] ∧
    sort_by_support [("X", ["p1", "p2", "p3"]), ("Y", ["p1", "p2", "p4", "p5"])]
      = [("Y", ["p1", "p2", "p4", "p5"]), ("X", ["p1", "p2", "p3"])] := by
  refine ⟨List.perm_insertionSort supportGE t, List.sorted_insertionSort supportGE t,
    ?_, by decide, by decide, by decide⟩
  intro a b heq hsub
  refine List.pair_sublist_insertionSort ?_ hsub
  unfold supportGE
  omega

/-- Witness for c7_ranking: the tied table keeps X and Y in insertion order
inside the sorted output. -/
theorem c7_ranking_witness :
    List.Sublist [(("X", ["p1", "p2", "p3"]) : String × List String),
        ("Y", ["p1", "p2", "p4"])]
      (sort_by_support [("X", ["p1", "p2", "p3"]), ("Y", ["p1", "p2", "p4"])]) :=
  (c7_ranking [("X", ["p1", "p2", "p3"]), ("Y", ["p1", "p2", "p4"])]).2.2.1
    ("X", ["p1", "p2", "p3"]) ("Y", ["p1", "p2", "p4"]) (by decide) (by decide)

/-! ## Index builder (variant_phenotype_evidence.py lines 265-297,
gene_newly_matched_evidence.py lines 212-235)

The four association tables (pmids_by_disease, pmids_by_gene,
pmids_by_variant, pmids_by_phenotype) are built by one loop shape: for each
PMID in order, for each key cited by that article (its disease keys, gene
symbols, gene:variant keys or phenotype terms, supplied here by the key
extractor `info`), append the PMID to table[key].  `build_index` is that loop
with the table as a total function from keys to PMID lists, starting from the
empty defaultdict. -/

/-- table[key].append(pmid) on a defaultdict(list) modelled as a total
function. -/
def table_append (t : String → List String) (k p : String) : String → List String :=
  fun q => if q = k then t q ++ [p] else t q

/-- Processing one article: append the PMID under every key the article
cites. -/
def index_article (t : String → List String) (p : String) (keys : List String) :
    String → List String :=
  keys.foldl (fun acc k => table_append acc k p) t

/-- The aggregation pass over the PMID list: each PMID contributes its
article keys (info p) in order. -/
def build_index (info : String → List String) (pmids : List String) :
    String → List String :=
  pmids.foldl (fun acc p => index_article acc p (info p)) (fun _ => [])

theorem index_article_not_mem (p : String) :
    ∀ (keys : List String) (t : String → List String) (k : String), k ∉ keys →
      index_article t p keys k = t k := by
  intro keys
  induction keys with
  | nil => intro t k _; rfl
  | cons k0 ks ih =>
    intro t k h
    have h1 : k ≠ k0 := by simp at h; exact h.1
    have h2 : k ∉ ks := by simp at h; exact h.2
    show index_article (table_append t k0 p) p ks k = t k
    rw [ih _ k h2]
    unfold table_append
    rw [if_neg h1]

theorem index_article_nodup (p : String) :
    ∀ (keys : List String) (t : String → List String) (k : String), keys.Nodup →
      index_article t p keys k = t k ++ (if k ∈ keys then [p] else []) := by
  intro keys
  induction keys with
  | nil => intro t k _; simp [index_article]
  | cons k0 ks ih =>
    intro t k hnd
    show index_article (table_append t k0 p) p ks k = _
    by_cases hk : k = k0
    · subst hk
      have hnotin : k ∉ ks := (List.nodup_cons.mp hnd).1
      rw [index_article_not_mem p ks _ k hnotin]
      unfold table_append
      rw [if_pos rfl]
      simp
    · rw [ih _ k (List.nodup_cons.mp hnd).2]
      unfold table_append
      rw [if_neg hk]
      simp [List.mem_cons, hk]

theorem build_index_eq_filter (info : String → List String)
    (hinfo : ∀ p, (info p).Nodup) :
    ∀ (pmids : List String) (t : String → List String) (k : String),
      (pmids.foldl (fun acc p => index_article acc p (info p)) t) k
        = t k ++ pmids.filter (fun p => decide (k ∈ info p)) := by
  intro pmids
  induction pmids with
  | nil => intro t k; simp
  | cons p ps ih =>
    intro t k
    show (ps.foldl _ (index_article t p (info p))) k = _
    rw [ih, index_article_nodup p (info p) t k (hinfo p)]
    by_cases hm : k ∈ info p
    · simp [hm, List.filter_cons]
    · simp [hm, List.filter_cons]

/-- Claim C8 (confirmed): with a fixed article store (`info` and `info2` give
each article the same cited keys up to order, each duplicate-free, modelling
a fixed set of fetched articles) and a duplicate-free PMID list, the
association table built by the index builder has the same contents in two
runs that process the PMIDs or the per-article cite lists in different
orders: every key maps to the same supporting-PMID collection (an equal
finite set, a list permutation), and each supporting-PMID list is
duplicate-free.  This covers all four tables (diseases, genes, variants,
phenotypes), which differ only in the key extractor. -/
theorem c8_index_determinism (info info2 : String → List String)
    (pmids pmids2 : List String) (hperm : pmids.Perm pmids2)
    (hinfo : ∀ p, (info p).Perm (info2 p)) (hnodup : ∀ p, (info p).Nodup)
    (hnd : pmids.Nodup) :
    ∀ k, (build_index info pmids k).Perm (build_index info2 pmids2 k) ∧
      (build_index info pmids k).toFinset = (build_index info2 pmids2 k).toFinset ∧
      (build_index info pmids k).Nodup ∧ (build_index info2 pmids2 k).Nodup := by
  have hnodup2 : ∀ p, (info2 p).Nodup := fun p => (hinfo p).nodup (hnodup p)
  intro k
  have e1 : build_index info pmids k = pmids.filter (fun p => decide (k ∈ info p)) := by
    have h := build_index_eq_filter info hnodup pmids (fun _ => []) k
    simpa [build_index] using h
  have e2 : build_index info2 pmids2 k
      = pmids2.filter (fun p => decide (k ∈ info2 p)) := by
    have h := build_index_eq_filter info2 hnodup2 pmids2 (fun _ => []) k
    simpa [build_index] using h
  have hsame : ∀ p ∈ pmids2, decide (k ∈ info p) = decide (k ∈ info2 p) := by
    intro p _
    simp [(hinfo p).mem_iff]
  have hp : (build_index info pmids k).Perm (build_index info2 pmids2 k) := by
    rw [e1, e2, ← List.filter_congr hsame]
    exact hperm.filter _
  refine ⟨hp, List.toFinset_eq_of_perm _ _ hp, ?_, ?_⟩
  · rw [e1]
    exact hnd.filter _
  · rw [e2]
    exact (hperm.nodup hnd).filter _

/-- Witness for c8_index_determinism: two PMIDs processed in either order,
with the cite list of the first article also reordered. -/
theorem c8_index_determinism_witness :
    (build_index
        (fun p => if p = "1000001" then ["BRCA1", "TP53"] else ["TP53"])
        ["1000001", "1000002"] "TP53").Perm (build_index
        (fun p => if p = "1000001" then ["TP53", "BRCA1"] else ["TP53"])
        ["1000002", "1000001"] "TP53") ∧
      (build_index (fun p => if p = "1000001" then ["BRCA1", "TP53"] else ["TP53"])
        ["1000001", "1000002"] "TP53").toFinset
        = (build_index (fun p => if p = "1000001" then ["TP53", "BRCA1"] else ["TP53"])
        ["1000002", "1000001"] "TP53").toFinset ∧
      (build_index (fun p => if p = "1000001" then ["BRCA1", "TP53"] else ["TP53"])
        ["1000001", "1000002"] "TP53").Nodup ∧
      (build_index (fun p => if p = "1000001" then ["TP53", "BRCA1"] else ["TP53"])
        ["1000002", "1000001"] "TP53").Nodup :=
  c8_index_determinism
    (fun p => if p = "1000001" then ["BRCA1", "TP53"] else ["TP53"])
    (fun p => if p = "1000001" then ["TP53", "BRCA1"] else ["TP53"])
    ["1000001", "1000002"] ["1000002", "1000001"] (by decide)
    (fun p => by
      by_cases h : p = "1000001"
      · simp only [if_pos h]
        decide
      · simp only [if_neg h]
        decide)
    (fun p => by
      by_cases h : p = "1000001"
      · simp only [if_pos h]
        decide
      · simp only [if_neg h]
        decide)
    (by decide) "TP53"

/-! ## Variant specificity filter and early stop
(variant_phenotype_evidence.py lines 177-214) -/

/-- An article record as returned on a page of the articles endpoint:
its PMID and the optional matched_dna flag (`none` models a missing key). -/
structure MMArticle where
  pmid : String
  matchedDna : Option Bool
  deriving DecidableEq, Repr

/-- Scan for an occurrence of the two characters a, b followed by a digit
(the regex searches c\.\d+ and g\.\d+ and rs\d+ anywhere in the string). -/
def hasCharPairDigit (a b : Char) : List Char → Bool
  | x :: y :: z :: rest =>
      (x == a && y == b && z.isDigit) || hasCharPairDigit a b (y :: z :: rest)
  | _ => false

/-- Scan for IVS followed by a digit (the regex IVS\d). -/
def hasIVSDigit : List Char → Bool
  | x :: y :: z :: w :: rest =>
      (x == 'I' && y == 'V' && z == 'S' && w.isDigit) || hasIVSDigit (y :: z :: w :: rest)
  | _ => false

/-- variant_dna_format (lines 177-178): the variant identifier is
nucleotide-level when it contains c.digits, g.digits, rsdigits or an IVS
intron form. -/
def variant_dna_format (v : String) : Bool :=
  hasCharPairDigit 'c' '.' v.data || hasCharPairDigit 'g' '.' v.data ||
    hasCharPairDigit 'r' 's' v.data || hasIVSDigit v.data

/-- specificity_match (lines 180-181): an article passes unless
ONLY_NUCLEOTIDE_CITATIONS is set and the queried variant is nucleotide-level,
in which case the article must carry matched_dna == True. -/
def specificity_match (onlyNucleotide variantDnaSpecificity : Bool) (a : MMArticle) :
    Bool :=
  (!onlyNucleotide || !variantDnaSpecificity) || a.matchedDna == some true

/-- The page loop of get_articles (lines 197-206) over the remaining pages
2..pages: each fetched page contributes its articles passing
specificity_match, and the loop breaks after any page whose last article
fails the predicate.  An empty page makes the Python data["articles"][-1]
raise IndexError, modelled as `none`. -/
def vpe_loop (onlyNuc sp : Bool) : List (List MMArticle) → Option (List String)
  | [] => some []
  | page :: rest =>
      match page.getLast? with
      | none => none
      | some last =>
          if specificity_match onlyNuc sp last then
            (vpe_loop onlyNuc sp rest).map
              (fun tail =>
                (page.filter (specificity_match onlyNuc sp)).map MMArticle.pmid ++ tail)
          else some ((page.filter (specificity_match onlyNuc sp)).map MMArticle.pmid)

/-- Number of pages the loop of vpe_loop requests before stopping. -/
def vpe_loop_fetched (onlyNuc sp : Bool) : List (List MMArticle) → Nat
  | [] => 0
  | page :: rest =>
      match page.getLast? with
      | none => 1
      | some last =>
          if specificity_match onlyNuc sp last then vpe_loop_fetched onlyNuc sp rest + 1
          else 1

/-- get_articles of variant_phenotype_evidence.py (lines 183-214) against a
service whose page i carries svcPages[i-1] and which reports
svcPages.length total pages.  variant_dna_specificity is
variant_dna_format(options["variant"]).  Page 1 contributes its passing
articles; with more than one page, the loop over pages 2.. runs only when the
last article of page 1 passes the predicate.  A zero-page response crashes in
print_progress(1, 0), modelled as `none`. -/
def vpe_get_articles (onlyNuc : Bool) (variant : String)
    (svcPages : List (List MMArticle)) : Option (List String) :=
  let sp := variant_dna_format variant
  match svcPages with
  | [] => none
  | page1 :: rest =>
      let pmids1 := (page1.filter (specificity_match onlyNuc sp)).map MMArticle.pmid
      if rest.isEmpty then some pmids1
      else
        match page1.getLast? with
        | none => none
        | some last =>
            if specificity_match onlyNuc sp last then
              (vpe_loop onlyNuc sp rest).map (fun tail => pmids1 ++ tail)
            else some pmids1

/-- Number of pages requested by vpe_get_articles (the page 1 query always
happens, even when the service reports zero pages). -/
def vpe_fetched_pages (onlyNuc : Bool) (variant : String)
    (svcPages : List (List MMArticle)) : Nat :=
  let sp := variant_dna_format variant
  match svcPages with
  | [] => 1
  | page1 :: rest =>
      if rest.isEmpty then 1
      else
        match page1.getLast? with
        | none => 1
        | some last =>
            if specificity_match onlyNuc sp last then vpe_loop_fetched onlyNuc sp rest + 1
            else 1

theorem specificity_match_of_off (onlyNuc sp : Bool)
    (h : onlyNuc = false ∨ sp = false) (a : MMArticle) :
    specificity_match onlyNuc sp a = true := by
  rcases h with h | h <;> simp [specificity_match, h]

theorem specificity_match_nucleotide :
    specificity_match true true = fun a => a.matchedDna == some true := by
  funext a
  simp [specificity_match]

theorem vpe_loop_result (onlyNuc sp : Bool) :
    ∀ rest : List (List MMArticle), (∀ page ∈ rest, page ≠ []) →
      vpe_loop onlyNuc sp rest
        = some (((rest.take (vpe_loop_fetched onlyNuc sp rest)).flatten.filter
            (specificity_match onlyNuc sp)).map MMArticle.pmid) := by
  intro rest
  induction rest with
  | nil => intro _; rfl
  | cons page rest ih =>
    intro h
    have hpage : page ≠ [] := h page (List.mem_cons_self page rest)
    cases hpl : page.getLast? with
    | none => exact absurd (List.getLast?_eq_none_iff.mp hpl) hpage
    | some last =>
      by_cases hk : specificity_match onlyNuc sp last = true
      · have ih' := ih (fun q hq => h q (List.mem_cons_of_mem _ hq))
        simp only [vpe_loop, vpe_loop_fetched, hpl, hk, if_true, ih']
        simp [List.take_succ_cons, List.flatten_cons, List.filter_append, List.map_append]
      · have hk' : specificity_match onlyNuc sp last = false := by
          simpa using hk
        simp only [vpe_loop, vpe_loop_fetched, hpl, hk', Bool.false_eq_true, if_false]
        simp [List.take_succ_cons, List.flatten_cons]

theorem vpe_loop_fetched_le (onlyNuc sp : Bool) :
    ∀ rest : List (List MMArticle), vpe_loop_fetched onlyNuc sp rest ≤ rest.length := by
  intro rest
  induction rest with
  | nil => exact Nat.le_refl 0
  | cons page rest ih =>
    cases hpl : page.getLast? with
    | none =>
      simp only [vpe_loop_fetched, hpl, List.length_cons]
      omega
    | some last =>
      simp only [vpe_loop_fetched, hpl, List.length_cons]
      split_ifs <;> omega

theorem vpe_loop_fetched_all (onlyNuc sp : Bool)
    (hall : ∀ a : MMArticle, specificity_match onlyNuc sp a = true) :
    ∀ rest : List (List MMArticle), (∀ page ∈ rest, page ≠ []) →
      vpe_loop_fetched onlyNuc sp rest = rest.length := by
  intro rest
  induction rest with
  | nil => intro _; rfl
  | cons page rest ih =>
    intro h
    have hpage : page ≠ [] := h page (List.mem_cons_self page rest)
    cases hpl : page.getLast? with
    | none => exact absurd (List.getLast?_eq_none_iff.mp hpl) hpage
    | some last =>
      simp only [vpe_loop_fetched, hpl, hall last, if_true, List.length_cons,
        ih (fun q hq => h q (List.mem_cons_of_mem _ hq))]

theorem vpe_loop_stop (onlyNuc sp : Bool) :
    ∀ (rest : List (List MMArticle)) (i : Nat), i < rest.length →
      ∀ last, (rest.getD i []).getLast? = some last →
        specificity_match onlyNuc sp last = false →
          vpe_loop_fetched onlyNuc sp rest ≤ i + 1 := by
  intro rest
  induction rest with
  | nil => intro i hi; simp at hi
  | cons page rest ih =>
    intro i hi last hlast hfail
    cases i with
    | zero =>
      rw [List.getD_cons_zero] at hlast
      simp only [vpe_loop_fetched, hlast, hfail, Bool.false_eq_true, if_false]
      omega
    | succ j =>
      rw [List.getD_cons_succ] at hlast
      have hj : j < rest.length := by
        simp only [List.length_cons] at hi
        omega
      have hrec := ih j hj last hlast hfail
      cases hpl : page.getLast? with
      | none =>
        simp only [vpe_loop_fetched, hpl]
        omega
      | some l =>
        simp only [vpe_loop_fetched, hpl]
        split_ifs <;> omega

/-- Two-page service refuting claim C6: page 1 holds a nucleotide-level match
followed by a protein-only match, page 2 holds another nucleotide-level
match. -/
def c6svc : List (List MMArticle) :=
  [[MMArticle.mk "p1" (some true), MMArticle.mk "p2" (some false)],
   [MMArticle.mk "p3" (some true)]]

/-- Claim C6, counterexample: with nucleotide-only mode on and the
nucleotide-level variant c.123, the retriever stops after page 1 (whose last
article fails the predicate) and returns only p1, even though the service
flags the page 2 article p3 as matched_dna true — so the result does not
contain exactly the articles the service flags as nucleotide-level matches. -/
theorem c6_counterexample :
    vpe_get_articles true "c.123" c6svc = some ["p1"] ∧
    MMArticle.mk "p3" (some true) ∈ c6svc.flatten ∧
    (MMArticle.mk "p3" (some true)).matchedDna = some true ∧
    "p3" ∉ ["p1"] := by
  refine ⟨?_, by decide, by decide, by decide⟩
  decide

/-- Claim C6 (corrected): over nonempty pages, the retriever returns exactly
the articles passing the specificity predicate among the pages it actually
fetched; in particular, with nucleotide-only mode enabled and a
nucleotide-level query, exactly the fetched articles flagged matched_dna true.
Fetching stops early: no page beyond the reported count is requested, and
after any page whose last article fails the predicate no further page is
requested.  When the mode is disabled or the queried identifier is not
nucleotide-level, no article is discarded by this filter and the full page
range is returned.  (As stated the claim fails, because an article flagged
matched_dna true on a page after the early stop is never seen — see the
counterexample.) -/
theorem c6_nucleotide_filter (onlyNuc : Bool) (variant : String)
    (svcPages : List (List MMArticle)) (hne : svcPages ≠ [])
    (hpages : ∀ page ∈ svcPages, page ≠ []) :
    vpe_get_articles onlyNuc variant svcPages
      = some ((((svcPages.take (vpe_fetched_pages onlyNuc variant svcPages)).flatten).filter
          (specificity_match onlyNuc (variant_dna_format variant))).map MMArticle.pmid) ∧
    (onlyNuc = true → variant_dna_format variant = true →
      vpe_get_articles onlyNuc variant svcPages
        = some ((((svcPages.take (vpe_fetched_pages onlyNuc variant svcPages)).flatten).filter
            (fun a => a.matchedDna == some true)).map MMArticle.pmid)) ∧
    ((onlyNuc = false ∨ variant_dna_format variant = false) →
      vpe_get_articles onlyNuc variant svcPages
        = some (svcPages.flatten.map MMArticle.pmid)) ∧
    vpe_fetched_pages onlyNuc variant svcPages ≤ svcPages.length ∧
    (∀ i, i < svcPages.length →
      ∀ last, (svcPages.getD i []).getLast? = some last →
        specificity_match onlyNuc (variant_dna_format variant) last = false →
          vpe_fetched_pages onlyNuc variant svcPages ≤ i + 1) := by
  have main : vpe_get_articles onlyNuc variant svcPages
      = some ((((svcPages.take (vpe_fetched_pages onlyNuc variant svcPages)).flatten).filter
          (specificity_match onlyNuc (variant_dna_format variant))).map MMArticle.pmid) := by
    cases svcPages with
    | nil => exact absurd rfl hne
    | cons page1 rest =>
      have hp1 : page1 ≠ [] := hpages page1 (List.mem_cons_self _ _)
      cases rest with
      | nil => simp [vpe_get_articles, vpe_fetched_pages]
      | cons page2 rest2 =>
        cases hpl : page1.getLast? with
        | none => exact absurd (List.getLast?_eq_none_iff.mp hpl) hp1
        | some last =>
          by_cases hk : specificity_match onlyNuc (variant_dna_format variant) last = true
          · have hrest : ∀ page ∈ page2 :: rest2, page ≠ [] :=
              fun q hq => hpages q (List.mem_cons_of_mem _ hq)
            simp only [vpe_get_articles, vpe_fetched_pages, List.isEmpty_cons, hpl, hk,
              if_true, vpe_loop_result onlyNuc (variant_dna_format variant) _ hrest]
            simp [List.take_succ_cons, List.flatten_cons, List.filter_append,
              List.map_append]
          · have hk' : specificity_match onlyNuc (variant_dna_format variant) last
                = false := by simpa using hk
            simp only [vpe_get_articles, vpe_fetched_pages, List.isEmpty_cons, hpl, hk',
              Bool.false_eq_true, if_false]
            simp [List.take_succ_cons, List.flatten_cons]
  have hstop : ∀ i, i < svcPages.length →
      ∀ last, (svcPages.getD i []).getLast? = some last →
        specificity_match onlyNuc (variant_dna_format variant) last = false →
          vpe_fetched_pages onlyNuc variant svcPages ≤ i + 1 := by
    intro i hi last hlast hfail
    cases svcPages with
    | nil => simp at hi
    | cons page1 rest =>
      cases rest with
      | nil => simp [vpe_fetched_pages]
      | cons page2 rest2 =>
        cases i with
        | zero =>
          rw [List.getD_cons_zero] at hlast
          simp only [vpe_fetched_pages, List.isEmpty_cons, hlast, hfail,
            Bool.false_eq_true, if_false]
          omega
        | succ j =>
          rw [List.getD_cons_succ] at hlast
          have hj : j < (page2 :: rest2).length := by
            simp only [List.length_cons] at hi ⊢
            omega
          have hrec := vpe_loop_stop onlyNuc (variant_dna_format variant)
            (page2 :: rest2) j hj last hlast hfail
          cases hpl : page1.getLast? with
          | none =>
            simp only [vpe_fetched_pages, List.isEmpty_cons, hpl, Bool.false_eq_true,
              if_false]
            omega
          | some l =>
            simp only [vpe_fetched_pages, List.isEmpty_cons, hpl, Bool.false_eq_true,
              if_false]
            split_ifs <;> omega
  have hle : vpe_fetched_pages onlyNuc variant svcPages ≤ svcPages.length := by
    cases svcPages with
    | nil => exact absurd rfl hne
    | cons page1 rest =>
      cases rest with
      | nil => simp [vpe_fetched_pages]
      | cons page2 rest2 =>
        have := vpe_loop_fetched_le onlyNuc (variant_dna_format variant) (page2 :: rest2)
        simp only [List.length_cons] at this
        cases hpl : page1.getLast? with
        | none =>
          simp only [vpe_fetched_pages, List.isEmpty_cons, hpl, List.length_cons,
            Bool.false_eq_true, if_false]
          omega
        | some l =>
          simp only [vpe_fetched_pages, List.isEmpty_cons, hpl, List.length_cons,
            Bool.false_eq_true, if_false]
          split_ifs <;> omega
  refine ⟨main, ?_, ?_, hle, hstop⟩
  · intro h1 h2
    rw [main, h1, h2, specificity_match_nucleotide]
  · intro hoff
    have hall := specificity_match_of_off onlyNuc (variant_dna_format variant) hoff
    have hfull : vpe_fetched_pages onlyNuc variant svcPages = svcPages.length := by
      cases svcPages with
      | nil => exact absurd rfl hne
      | cons page1 rest =>
        have hp1 : page1 ≠ [] := hpages page1 (List.mem_cons_self _ _)
        cases rest with
        | nil => simp [vpe_fetched_pages]
        | cons page2 rest2 =>
          cases hpl : page1.getLast? with
          | none => exact absurd (List.getLast?_eq_none_iff.mp hpl) hp1
          | some last =>
            have hrest : ∀ page ∈ page2 :: rest2, page ≠ [] :=
              fun q hq => hpages q (List.mem_cons_of_mem _ hq)
            simp only [vpe_fetched_pages, List.isEmpty_cons, hpl, hall last, if_true,
              vpe_loop_fetched_all onlyNuc (variant_dna_format variant) hall _ hrest,
              List.length_cons, Bool.false_eq_true, if_false]
    rw [main, hfull, List.take_length]
    congr 1
    rw [List.filter_eq_self.mpr (fun a _ => hall a)]

/-- Witness for c6_nucleotide_filter on a one-page service with one
nucleotide-flagged article and the nucleotide-level variant c.123. -/
theorem c6_nucleotide_filter_witness :
    vpe_get_articles true "c.123" [[MMArticle.mk "p1" (some true)]]
      = some (((([[MMArticle.mk "p1" (some true)]].take
            (vpe_fetched_pages true "c.123" [[MMArticle.mk "p1" (some true)]])).flatten).filter
          (specificity_match true (variant_dna_format "c.123"))).map MMArticle.pmid) ∧
    (true = true → variant_dna_format "c.123" = true →
      vpe_get_articles true "c.123" [[MMArticle.mk "p1" (some true)]]
        = some (((([[MMArticle.mk "p1" (some true)]].take
              (vpe_fetched_pages true "c.123" [[MMArticle.mk "p1" (some true)]])).flatten).filter
            (fun a => a.matchedDna == some true)).map MMArticle.pmid)) ∧
    ((true = false ∨ variant_dna_format "c.123" = false) →
      vpe_get_articles true "c.123" [[MMArticle.mk "p1" (some true)]]
        = some (([[MMArticle.mk "p1" (some true)]] : List (List MMArticle)).flatten.map
            MMArticle.pmid)) ∧
    vpe_fetched_pages true "c.123" [[MMArticle.mk "p1" (some true)]]
      ≤ ([[MMArticle.mk "p1" (some true)]] : List (List MMArticle)).length ∧
    (∀ i, i < ([[MMArticle.mk "p1" (some true)]] : List (List MMArticle)).length →
      ∀ last, (([[MMArticle.mk "p1" (some true)]] : List (List MMArticle)).getD i
          []).getLast? = some last →
        specificity_match true (variant_dna_format "c.123") last = false →
          vpe_fetched_pages true "c.123" [[MMArticle.mk "p1" (some true)]] ≤ i + 1) :=
  c6_nucleotide_filter true "c.123" [[MMArticle.mk "p1" (some true)]]
    (by decide) (by decide)

end MastermindCookbook
